import Mathlib

/-!
Shallow embedding of `generate_compose.py`: a utility that renders a
docker-compose configuration text from a `GenerationRequest` and writes it to
disk, creating missing parent directories.  Host account lookup (`pwd`/`grp`)
is modelled by an explicit lookup structure; the filesystem by an explicit
state record.  String rendering mirrors the Python f-string line by line.
-/

/-- Split a character list at newline characters (the line decomposition of a
text, as Python would produce for the rendered document). -/
def splitLinesChars : List Char → List (List Char)
  | [] => [[]]
  | c :: cs =>
    match splitLinesChars cs with
    | [] => [[]]
    | l :: ls => if c = '\n' then [] :: l :: ls else (c :: l) :: ls

/-- Line decomposition of a string. -/
def splitLines (s : String) : List String :=
  (splitLinesChars s.data).map (fun l => String.mk l)

/-- Join lines with a newline separator (inverse of `splitLines` on
newline-free lines). -/
def joinLines : List String → String
  | [] => ""
  | [l] => l
  | l :: l2 :: ls => l ++ "\n" ++ joinLines (l2 :: ls)

/-- Characters of a path after the last slash (the raw tail of
`posixpath.split`); the head is everything up to and including that slash. -/
def splitRawTail (cs : List Char) : List Char :=
  (cs.reverse.takeWhile (fun c => c ≠ '/')).reverse

/-- Drop trailing slash characters (Python `rstrip` with a slash). -/
def stripTrailingSlashes (cs : List Char) : List Char :=
  (cs.reverse.dropWhile (fun c => c = '/')).reverse

/-- `posixpath.split`: split a path into `(head, tail)` at the final slash;
the head keeps no trailing slashes unless it consists only of slashes. -/
def posixSplit (p : String) : String × String :=
  let cs := p.data
  let tail := splitRawTail cs
  let head := cs.take (cs.length - tail.length)
  let head2 := if head ≠ [] ∧ head.any (fun c => c ≠ '/') then stripTrailingSlashes head else head
  (String.mk head2, String.mk tail)

/-- `os.path.dirname`: the head component of `posixpath.split`. -/
def dirname (p : String) : String :=
  (posixSplit p).1

/-- The I/O failures the model distinguishes; each corresponds to an
`OSError` subclass, hence is caught by the except clause of the script. -/
inductive IOErr where
  | fileNotFound (p : String)
  | fileExists (p : String)
  | isADirectory (p : String)
  | permissionDenied (p : String)
deriving DecidableEq, Repr

/-- The message text Python would render for the error (`str(e)`). -/
def IOErr.message : IOErr → String
  | .fileNotFound p => "[Errno 2] No such file or directory: \x27" ++ p ++ "\x27"
  | .fileExists p => "[Errno 17] File exists: \x27" ++ p ++ "\x27"
  | .isADirectory p => "[Errno 21] Is a directory: \x27" ++ p ++ "\x27"
  | .permissionDenied p => "[Errno 13] Permission denied: \x27" ++ p ++ "\x27"

/-- Filesystem state: the set of existing directories, the existing files with
their contents, and the paths on which creation or writing is denied
(permission failures). -/
structure FS where
  dirs : List String
  files : List (String × String)
  denied : List String
deriving DecidableEq, Repr

/-- `os.path.isdir` on the modelled state. -/
def FS.isdir (fs : FS) (p : String) : Prop :=
  p ∈ fs.dirs

instance (fs : FS) (p : String) : Decidable (fs.isdir p) :=
  inferInstanceAs (Decidable (p ∈ fs.dirs))

/-- Whether a regular file exists at `p`. -/
def FS.isfile (fs : FS) (p : String) : Prop :=
  p ∈ fs.files.map Prod.fst

instance (fs : FS) (p : String) : Decidable (fs.isfile p) :=
  inferInstanceAs (Decidable (p ∈ fs.files.map Prod.fst))

/-- `os.path.exists` on the modelled state. -/
def FS.path_exists (fs : FS) (p : String) : Prop :=
  fs.isdir p ∨ fs.isfile p

instance (fs : FS) (p : String) : Decidable (fs.path_exists p) :=
  inferInstanceAs (Decidable (fs.isdir p ∨ fs.isfile p))

/-- `os.mkdir`: fails on the empty path, on an existing entry, on a denied
path, and when the parent directory is absent; otherwise records the new
directory. -/
def FS.mkdir (fs : FS) (name : String) : Except IOErr FS :=
  if name = "" then .error (.fileNotFound name)
  else if fs.isdir name ∨ fs.isfile name then .error (.fileExists name)
  else if name ∈ fs.denied then .error (.permissionDenied name)
  else if dirname name = "" ∨ dirname name = name ∨ fs.isdir (dirname name) then
    .ok { fs with dirs := name :: fs.dirs }
  else .error (.fileNotFound name)

/-- The final stage of `os.makedirs`: `mkdir` the full path, swallowing the
error exactly when the path is already a directory (`exist_ok=True`). -/
def mkdirStage (fs : FS) (name : String) : FS × Option IOErr :=
  match fs.mkdir name with
  | .ok fs3 => (fs3, none)
  | .error e => if fs.isdir name then (fs, none) else (fs, some e)

/-- `os.makedirs(name, exist_ok=True)`, fuel-bounded: split off the final
component, recursively ensure the head exists (swallowing `FileExistsError`
from the recursion), then `mkdir` the full path via `mkdirStage`. -/
def makedirsAux : Nat → FS → String → FS × Option IOErr
  | 0, fs, name => (fs, some (.fileNotFound name))
  | fuel + 1, fs, name =>
    let ht0 := posixSplit name
    let ht := if ht0.2 = "" then posixSplit ht0.1 else ht0
    let step :=
      if ht.1 ≠ "" ∧ ht.2 ≠ "" ∧ ¬ fs.path_exists ht.1 then
        match makedirsAux fuel fs ht.1 with
        | (fs2, some (IOErr.fileExists _)) => (fs2, none)
        | r => r
      else (fs, none)
    match step with
    | (fs2, some e) => (fs2, some e)
    | (fs2, none) => mkdirStage fs2 name

/-- `os.makedirs` with enough fuel for the component chain of `name`. -/
def makedirs (fs : FS) (name : String) : FS × Option IOErr :=
  makedirsAux (name.length + 1) fs name

/-- The conditions under which `open(p, "w")` fails, independent of the
content to be written. -/
def FS.writeCheck (fs : FS) (p : String) : Option IOErr :=
  if p = "" then some (.fileNotFound p)
  else if fs.isdir p then some (.isADirectory p)
  else if p ∈ fs.denied then some (.permissionDenied p)
  else if dirname p = "" ∨ fs.isdir (dirname p) then none
  else some (.fileNotFound p)

/-- Record the file at `p` with content `c`, replacing any previous entry. -/
def FS.putFile (fs : FS) (p c : String) : FS :=
  { fs with files := (p, c) :: fs.files.filter (fun pc => pc.1 ≠ p) }

/-- Content of the file at `p`, when present. -/
def FS.readFile (fs : FS) (p : String) : Option String :=
  (fs.files.find? (fun pc => pc.1 = p)).map (fun pc => pc.2)

/-- Well-formedness of a filesystem state as the operating system guarantees
it: the empty path is not a directory, and the parent of every directory is
the working directory, the directory itself (the root), or an existing
directory. -/
def FS.wf (fs : FS) : Prop :=
  ("" ∉ fs.dirs) ∧
  ∀ p ∈ fs.dirs, dirname p = "" ∨ dirname p = p ∨ fs.isdir (dirname p)

instance (fs : FS) : Decidable fs.wf := by
  unfold FS.wf FS.isdir; infer_instance

/-- The transient value object built from the command line. -/
structure GenerationRequest where
  output_path : String
  host_port : Int
  container_port : Int
  user_name : String
  projects_subdir : String
  config_subdir : String
  use_docker_socket : Bool
deriving DecidableEq, Repr

/-- The host account database: `pwd.getpwnam(n).pw_uid` and
`grp.getgrnam(n).gr_gid`, with `none` standing for a `KeyError`. -/
structure HostAccounts where
  pw_uid : String → Option Nat
  gr_gid : String → Option Nat

/-- The warning printed to the diagnostic stream when the user lookup fails. -/
def warning_message (user_name : String) : String :=
  "[Warning] User \x27" ++ user_name ++ "\x27 not found locally when generating compose. " ++
  "Container might run as default user. Ensure \x27" ++ user_name ++ "\x27 exists on the host."

/-- The comment-only placeholder directive used when the lookup fails. -/
def user_directive_placeholder : String :=
  "# user: \"<uid>:<gid>\" # Set manually if needed"

/-- Resolve the user directive from the host accounts: on success the
`user: "uid:gid"` line, on a failed lookup the placeholder plus a warning for
the diagnostic stream. -/
def resolve_user_directive (acc : HostAccounts) (user_name : String) : String × List String :=
  match acc.pw_uid user_name with
  | none => (user_directive_placeholder, [warning_message user_name])
  | some uid =>
    match acc.gr_gid user_name with
    | none => (user_directive_placeholder, [warning_message user_name])
    | some gid => ("user: \"" ++ toString uid ++ ":" ++ toString gid ++ "\"", [])

/-- The rendered document: the f-string of the script, line by line. -/
def compose_content (req : GenerationRequest) (user_directive : String) : String :=
  joinLines
    [ "",
      "services:",
      "  code-server:",
      "    image: codercom/code-server:latest # Official image",
      "    container_name: code-server",
      "    command: [\"--cert\"]",
      "    environment:",
      "      # Optional: Set passwords via environment variables if desired",
      "      # - PASSWORD=your_strong_password_here # Set a fixed password",
      "      # - SUDO_PASSWORD=optional_sudo_password # If you need sudo inside",
      "      - TZ=Etc/UTC",
      "    volumes:",
      "      # Map config dir from host (relative to compose file) to container",
      "      - ./" ++ req.config_subdir ++ ":/home/coder/.config ",
      "      # Map local settings dir from host (relative to compose file) to container",
      "      - ./" ++ req.config_subdir ++ "/local-share:/home/coder/.local/share/code-server",
      "      # Map projects dir from host (relative to compose file) to container",
      "      - ./" ++ req.projects_subdir ++ ":/home/coder/projects",
      "      # Optional: Mount docker socket (use with caution)",
      "      " ++ (if req.use_docker_socket then "- /var/run/docker.sock:/var/run/docker.sock"
                   else "# - /var/run/docker.sock:/var/run/docker.sock"),
      "    ports:",
      "      # Map host port to container port",
      "      - \"" ++ toString req.host_port ++ ":" ++ toString req.container_port ++ "\"",
      "    restart: unless-stopped",
      "    # Run the container process as the host user for correct volume permissions",
      "    " ++ user_directive,
      "",
      "networks:",
      "  default:",
      "    name: code-server_network",
      "",
      "" ]

/-- The success report printed to standard output. -/
def info_message (output_path : String) : String :=
  "[Info] docker-compose.yml successfully generated at: " ++ output_path

/-- The failure report printed to the diagnostic stream. -/
def error_message (output_path : String) (e : IOErr) : String :=
  "[Error] Failed to write docker-compose.yml to " ++ output_path ++ ": " ++ e.message

/-- Ensure the parent directory exists, then write; returns the filesystem
reached and the error, when one occurred. -/
def write_to_disk (fs : FS) (output_path content : String) : FS × Option IOErr :=
  match makedirs fs (dirname output_path) with
  | (fs1, some e) => (fs1, some e)
  | (fs1, none) =>
    match fs1.writeCheck output_path with
    | some e => (fs1, some e)
    | none => (fs1.putFile output_path content, none)

/-- Observable outcome of one run: final filesystem, process exit code, and
the lines printed on the two streams. -/
structure RunResult where
  fs : FS
  exitCode : Nat
  stdout : List String
  stderr : List String
deriving DecidableEq, Repr

/-- The whole program run: resolve the user directive, render the document,
create the parent directories and write the file; any I/O failure is caught,
reported, and turned into exit code 1. -/
def generate_compose_yaml (acc : HostAccounts) (fs : FS) (req : GenerationRequest) : RunResult :=
  let rud := resolve_user_directive acc req.user_name
  let content := compose_content req rud.1
  match write_to_disk fs req.output_path content with
  | (fs2, none) => ⟨fs2, 0, [info_message req.output_path], rud.2⟩
  | (fs2, some e) => ⟨fs2, 1, [], rud.2 ++ [error_message req.output_path e]⟩

/-- The chain of a path and its successive parent directories, stopping at the
working directory (the empty string) or at a fixpoint of `dirname` (the
root). -/
def ancestorChainAux : Nat → String → List String
  | 0, _ => []
  | fuel + 1, p =>
    if p = "" then [] else if dirname p = p then [p] else p :: ancestorChainAux fuel (dirname p)

/-- The ancestors of `p`, with fuel sufficient for any path. -/
def ancestorChain (p : String) : List String :=
  ancestorChainAux (p.length + 1) p

/-- A host account database on which every lookup succeeds with uid and gid
1000. -/
def sampleAccounts : HostAccounts :=
  ⟨fun _ => some 1000, fun _ => some 1000⟩

/-- A host account database on which every lookup fails. -/
def emptyAccounts : HostAccounts :=
  ⟨fun _ => none, fun _ => none⟩

/-- A small initial filesystem: the root and a `/tmp` directory. -/
def baseFS : FS :=
  ⟨["/", "/tmp"], [], []⟩

/-- The request of the specification example: output below a directory that
does not yet exist. -/
def sampleRequest : GenerationRequest :=
  ⟨"/tmp/x/y/docker-compose.yml", 8443, 8443, "coder", "projects", "config", false⟩

/-- A request whose output path is a bare filename without a slash. -/
def bareRequest : GenerationRequest :=
  ⟨"docker-compose.yml", 8443, 8443, "coder", "projects", "config", false⟩

/-- A request with the socket option enabled. -/
def socketRequest : GenerationRequest :=
  ⟨"/tmp/x/y/docker-compose.yml", 8443, 8443, "coder", "projects", "config", true⟩

/-- A request whose projects directory name embeds a newline followed by an
uncommented socket-mount line. -/
def injectedRequest : GenerationRequest :=
  ⟨"/tmp/out.yml", 8443, 8443, "coder",
    "a\n      - /var/run/docker.sock:/var/run/docker.sock\n#", "config", false⟩

/-! ### Lemmas about the line decomposition -/

theorem splitLinesChars_ne_nil (cs : List Char) : splitLinesChars cs ≠ [] := by
  match cs with
  | [] => simp [splitLinesChars]
  | c :: cs =>
    cases h : splitLinesChars cs with
    | nil => simp [splitLinesChars, h]
    | cons l ls =>
      simp only [splitLinesChars, h]
      split <;> simp

theorem splitLinesChars_append (ls rest : List Char) (h : '\n' ∉ ls) :
    splitLinesChars (ls ++ '\n' :: rest) = ls :: splitLinesChars rest := by
  induction ls with
  | nil =>
    cases hr : splitLinesChars rest with
    | nil => exact absurd hr (splitLinesChars_ne_nil rest)
    | cons l L => simp [splitLinesChars, hr]
  | cons c cs ih =>
    have hc : c ≠ '\n' := fun hc => h (hc ▸ List.mem_cons_self c cs)
    have h2 : '\n' ∉ cs := fun hm => h (List.mem_cons_of_mem c hm)
    show splitLinesChars (c :: (cs ++ '\n' :: rest)) = _
    simp only [splitLinesChars]
    rw [ih h2]
    simp [hc]

theorem splitLinesChars_no_newline (ls : List Char) (h : '\n' ∉ ls) :
    splitLinesChars ls = [ls] := by
  induction ls with
  | nil => rfl
  | cons c cs ih =>
    have hc : c ≠ '\n' := fun hc => h (hc ▸ List.mem_cons_self c cs)
    simp only [splitLinesChars, ih (fun hm => h (List.mem_cons_of_mem c hm))]
    simp [hc]

theorem splitLinesChars_mem_shift (xs : List Char) (c : Char) (cs : List Char)
    (h : ∃ l L, splitLinesChars cs = l :: L ∧ xs ∈ L) :
    ∃ l L, splitLinesChars (c :: cs) = l :: L ∧ xs ∈ L := by
  obtain ⟨l, L, heq, hm⟩ := h
  by_cases hc : c = '\n'
  · exact ⟨[], l :: L, by simp [splitLinesChars, heq, hc], List.mem_cons_of_mem l hm⟩
  · exact ⟨c :: l, L, by simp [splitLinesChars, heq, hc], hm⟩

theorem splitLinesChars_mem_base (xs post : List Char) (hx : '\n' ∉ xs) :
    ∃ l L, splitLinesChars ('\n' :: (xs ++ '\n' :: post)) = l :: L ∧ xs ∈ L :=
  ⟨[], xs :: splitLinesChars post,
    by simp [splitLinesChars, splitLinesChars_append xs post hx],
    List.mem_cons_self xs _⟩

theorem splitLinesChars_mem_middle (xs : List Char) (hx : '\n' ∉ xs)
    (pre post : List Char) :
    ∃ l L, splitLinesChars (pre ++ '\n' :: (xs ++ '\n' :: post)) = l :: L ∧ xs ∈ L := by
  induction pre with
  | nil => simpa using splitLinesChars_mem_base xs post hx
  | cons c cs ih => exact splitLinesChars_mem_shift xs c _ ih

theorem strMk_data (s : String) : String.mk s.data = s := rfl

theorem newline_data : ("\n" : String).data = ['\n'] := rfl

theorem mem_splitLines_of_data_shape (s x : String) (hx : '\n' ∉ x.data)
    (pre post : List Char) (hs : s.data = pre ++ '\n' :: (x.data ++ '\n' :: post)) :
    x ∈ splitLines s := by
  obtain ⟨l, L, heq, hm⟩ := splitLinesChars_mem_middle x.data hx pre post
  unfold splitLines
  rw [hs, heq]
  exact List.mem_map.mpr ⟨x.data, List.mem_cons_of_mem l hm, strMk_data x⟩

theorem joinLines_data_middle (A B : List String) (x : String) (hA : A ≠ []) (hB : B ≠ []) :
    ∃ pre post : List Char,
      (joinLines (A ++ x :: B)).data = pre ++ '\n' :: (x.data ++ '\n' :: post) := by
  induction A with
  | nil => exact absurd rfl hA
  | cons a A2 ih =>
    cases A2 with
    | nil =>
      cases B with
      | nil => exact absurd rfl hB
      | cons b B2 =>
        refine ⟨a.data, (joinLines (b :: B2)).data, ?_⟩
        show (a ++ "\n" ++ joinLines (x :: b :: B2)).data = _
        have : joinLines (x :: b :: B2) = x ++ "\n" ++ joinLines (b :: B2) := rfl
        rw [this]
        simp [newline_data]
    | cons a2 A3 =>
      obtain ⟨pre, post, hp⟩ := ih (by simp)
      refine ⟨a.data ++ '\n' :: pre, post, ?_⟩
      show (a ++ "\n" ++ joinLines ((a2 :: A3) ++ x :: B)).data = _
      rw [String.data_append, String.data_append, hp]
      simp [newline_data]

theorem mem_splitLines_joinLines_middle (A B : List String) (x : String)
    (hx : '\n' ∉ x.data) (hA : A ≠ []) (hB : B ≠ []) :
    x ∈ splitLines (joinLines (A ++ x :: B)) := by
  obtain ⟨pre, post, hp⟩ := joinLines_data_middle A B x hA hB
  exact mem_splitLines_of_data_shape _ x hx pre post hp

theorem splitLines_joinLines (L : List String) (hne : L ≠ [])
    (h : ∀ l ∈ L, '\n' ∉ l.data) : splitLines (joinLines L) = L := by
  induction L with
  | nil => exact absurd rfl hne
  | cons a L2 ih =>
    cases L2 with
    | nil =>
      have h1 : joinLines [a] = a := rfl
      unfold splitLines
      rw [h1, splitLinesChars_no_newline a.data (h a (List.mem_cons_self a _))]
      simp [strMk_data]
    | cons b L3 =>
      have hd : (joinLines (a :: b :: L3)).data = a.data ++ '\n' :: (joinLines (b :: L3)).data := by
        show (a ++ "\n" ++ joinLines (b :: L3)).data = _
        simp [newline_data]
      have ih2 := ih (by simp) (fun l hl => h l (List.mem_cons_of_mem a hl))
      unfold splitLines at ih2 ⊢
      rw [hd, splitLinesChars_append _ _ (h a (List.mem_cons_self a _)),
        List.map_cons, strMk_data, ih2]

/-! ### Decimal representations contain no newline -/

theorem digitChar_ne_newline (n : Nat) : Nat.digitChar n ≠ '\n' := by
  rcases Nat.lt_or_ge n 16 with h | h
  · interval_cases n <;> decide
  · unfold Nat.digitChar
    rw [if_neg (by omega : ¬ n = 0), if_neg (by omega : ¬ n = 1), if_neg (by omega : ¬ n = 2),
      if_neg (by omega : ¬ n = 3), if_neg (by omega : ¬ n = 4), if_neg (by omega : ¬ n = 5),
      if_neg (by omega : ¬ n = 6), if_neg (by omega : ¬ n = 7), if_neg (by omega : ¬ n = 8),
      if_neg (by omega : ¬ n = 9), if_neg (by omega : ¬ n = 10), if_neg (by omega : ¬ n = 11),
      if_neg (by omega : ¬ n = 12), if_neg (by omega : ¬ n = 13), if_neg (by omega : ¬ n = 14),
      if_neg (by omega : ¬ n = 15)]
    decide

theorem toDigitsCore_ne_newline (b : Nat) (fuel : Nat) :
    ∀ (n : Nat) (ds : List Char), (∀ c ∈ ds, c ≠ '\n') →
      ∀ c ∈ Nat.toDigitsCore b fuel n ds, c ≠ '\n' := by
  induction fuel with
  | zero => intro n ds h c hc; exact h c hc
  | succ f ih =>
    intro n ds h c hc
    simp only [Nat.toDigitsCore] at hc
    split at hc
    · rcases List.mem_cons.mp hc with h1 | h1
      · exact h1 ▸ digitChar_ne_newline _
      · exact h c h1
    · refine ih _ _ (fun d hd => ?_) c hc
      rcases List.mem_cons.mp hd with h1 | h1
      · exact h1 ▸ digitChar_ne_newline _
      · exact h d h1

theorem nat_repr_ne_newline (n : Nat) : '\n' ∉ (Nat.repr n).data := fun hm =>
  toDigitsCore_ne_newline 10 (n + 1) n [] (fun c hc => absurd hc (List.not_mem_nil c)) '\n' hm rfl

theorem toString_nat_ne_newline (n : Nat) : '\n' ∉ (toString n).data :=
  nat_repr_ne_newline n

theorem toString_int_ne_newline (i : Int) : '\n' ∉ (toString i).data := by
  cases i with
  | ofNat m => exact nat_repr_ne_newline m
  | negSucc m =>
    show '\n' ∉ (("-" : String) ++ toString (m + 1)).data
    rw [String.data_append]
    intro hm
    rcases List.mem_append.mp hm with h | h
    · have hd : ("-" : String).data = ['-'] := rfl
      rw [hd] at h
      simp at h
    · exact toString_nat_ne_newline (m + 1) h

/-! ### Newline-freeness of rendered fragments -/

theorem no_newline_append {a b : String} (ha : '\n' ∉ a.data) (hb : '\n' ∉ b.data) :
    '\n' ∉ (a ++ b).data := by
  rw [String.data_append]
  intro hm
  rcases List.mem_append.mp hm with h | h
  · exact ha h
  · exact hb h

theorem no_newline_ite {c : Prop} [Decidable c] {a b : String}
    (ha : '\n' ∉ a.data) (hb : '\n' ∉ b.data) : '\n' ∉ (if c then a else b).data := by
  split
  · exact ha
  · exact hb

theorem resolve_user_directive_no_newline (acc : HostAccounts) (u : String) :
    '\n' ∉ ((resolve_user_directive acc u).1).data := by
  unfold resolve_user_directive
  cases acc.pw_uid u with
  | none =>
    show '\n' ∉ user_directive_placeholder.data
    decide
  | some uid =>
    cases acc.gr_gid u with
    | none =>
      show '\n' ∉ user_directive_placeholder.data
      decide
    | some gid =>
      show '\n' ∉ ("user: \"" ++ toString uid ++ ":" ++ toString gid ++ "\"").data
      intro hm
      simp only [String.data_append, List.mem_append] at hm
      rcases hm with (((h | h) | h) | h) | h
      · exact absurd h (by decide)
      · exact toString_nat_ne_newline uid h
      · exact absurd h (by decide)
      · exact toString_nat_ne_newline gid h
      · exact absurd h (by decide)

/-- The line structure of the rendered document, for directory names and a
user directive free of newline characters. -/
theorem compose_content_lines (req : GenerationRequest) (ud : String)
    (hc : '\n' ∉ req.config_subdir.data) (hp : '\n' ∉ req.projects_subdir.data)
    (hu : '\n' ∉ ud.data) :
    splitLines (compose_content req ud) =
    [ "",
      "services:",
      "  code-server:",
      "    image: codercom/code-server:latest # Official image",
      "    container_name: code-server",
      "    command: [\"--cert\"]",
      "    environment:",
      "      # Optional: Set passwords via environment variables if desired",
      "      # - PASSWORD=your_strong_password_here # Set a fixed password",
      "      # - SUDO_PASSWORD=optional_sudo_password # If you need sudo inside",
      "      - TZ=Etc/UTC",
      "    volumes:",
      "      # Map config dir from host (relative to compose file) to container",
      "      - ./" ++ req.config_subdir ++ ":/home/coder/.config ",
      "      # Map local settings dir from host (relative to compose file) to container",
      "      - ./" ++ req.config_subdir ++ "/local-share:/home/coder/.local/share/code-server",
      "      # Map projects dir from host (relative to compose file) to container",
      "      - ./" ++ req.projects_subdir ++ ":/home/coder/projects",
      "      # Optional: Mount docker socket (use with caution)",
      "      " ++ (if req.use_docker_socket then "- /var/run/docker.sock:/var/run/docker.sock"
                   else "# - /var/run/docker.sock:/var/run/docker.sock"),
      "    ports:",
      "      # Map host port to container port",
      "      - \"" ++ toString req.host_port ++ ":" ++ toString req.container_port ++ "\"",
      "    restart: unless-stopped",
      "    # Run the container process as the host user for correct volume permissions",
      "    " ++ ud,
      "",
      "networks:",
      "  default:",
      "    name: code-server_network",
      "",
      "" ] := by
  unfold compose_content
  apply splitLines_joinLines _ (by simp)
  intro l hl
  fin_cases hl
  all_goals try decide
  · exact no_newline_append (no_newline_append (by decide) hc) (by decide)
  · exact no_newline_append (no_newline_append (by decide) hc) (by decide)
  · exact no_newline_append (no_newline_append (by decide) hp) (by decide)
  · exact no_newline_append (by decide) (no_newline_ite (by decide) (by decide))
  · exact no_newline_append (no_newline_append (no_newline_append (no_newline_append
      (by decide) (toString_int_ne_newline _)) (by decide)) (toString_int_ne_newline _)) (by decide)
  · exact no_newline_append (by decide) hu

/-! ### Lemmas about directory creation -/

theorem mkdir_ok (fs : FS) (name : String) (fs3 : FS) (h : fs.mkdir name = .ok fs3) :
    fs3.dirs = name :: fs.dirs ∧ fs3.files = fs.files ∧ fs3.denied = fs.denied ∧
    name ≠ "" ∧ (dirname name = "" ∨ dirname name = name ∨ fs.isdir (dirname name)) := by
  unfold FS.mkdir at h
  split at h
  next h1 => cases h
  next h1 =>
    split at h
    next h2 => cases h
    next h2 =>
      split at h
      next h3 => cases h
      next h3 =>
        split at h
        next h4 =>
          rw [Except.ok.injEq] at h
          subst h
          exact ⟨rfl, rfl, rfl, h1, h4⟩
        next h4 => cases h

theorem mkdirStage_spec (fs : FS) (name : String) :
    ((mkdirStage fs name).1.files = fs.files) ∧
    ((mkdirStage fs name).1.denied = fs.denied) ∧
    (∀ p, fs.isdir p → (mkdirStage fs name).1.isdir p) ∧
    (fs.wf → (mkdirStage fs name).1.wf) ∧
    ((mkdirStage fs name).2 = none → (mkdirStage fs name).1.isdir name) := by
  unfold mkdirStage
  cases hm : fs.mkdir name with
  | ok fs3 =>
    obtain ⟨hd, hf, hden, hne, hpar⟩ := mkdir_ok fs name fs3 hm
    refine ⟨hf, hden, ?_, ?_, ?_⟩
    · intro p hp
      show p ∈ fs3.dirs
      rw [hd]
      exact List.mem_cons_of_mem name hp
    · intro hwf
      constructor
      · rw [hd]
        intro hmem
        rcases List.mem_cons.mp hmem with h0 | h0
        · exact hne h0.symm
        · exact hwf.1 h0
      · intro p hp
        rw [hd] at hp
        have lift : ∀ q, fs.isdir q → fs3.isdir q := fun q hq => by
          show q ∈ fs3.dirs
          rw [hd]
          exact List.mem_cons_of_mem name hq
        rcases List.mem_cons.mp hp with h0 | h0
        · subst h0
          rcases hpar with h5 | h5 | h5
          · exact Or.inl h5
          · exact Or.inr (Or.inl h5)
          · exact Or.inr (Or.inr (lift _ h5))
        · rcases hwf.2 p h0 with h5 | h5 | h5
          · exact Or.inl h5
          · exact Or.inr (Or.inl h5)
          · exact Or.inr (Or.inr (lift _ h5))
    · intro _
      show name ∈ fs3.dirs
      rw [hd]
      exact List.mem_cons_self name fs.dirs
  | error e =>
    dsimp only
    by_cases hid : fs.isdir name
    · rw [if_pos hid]
      exact ⟨rfl, rfl, fun p hp => hp, fun hwf => hwf, fun _ => hid⟩
    · rw [if_neg hid]
      exact ⟨rfl, rfl, fun p hp => hp, fun hwf => hwf, fun hcon => absurd hcon (by simp)⟩

theorem makedirsAux_spec (fuel : Nat) : ∀ (fs : FS) (name : String),
    ((makedirsAux fuel fs name).1.files = fs.files) ∧
    ((makedirsAux fuel fs name).1.denied = fs.denied) ∧
    (∀ p, fs.isdir p → (makedirsAux fuel fs name).1.isdir p) ∧
    (fs.wf → (makedirsAux fuel fs name).1.wf) ∧
    ((makedirsAux fuel fs name).2 = none → (makedirsAux fuel fs name).1.isdir name) := by
  induction fuel with
  | zero =>
    intro fs name
    exact ⟨rfl, rfl, fun p hp => hp, fun h => h, fun hcon => absurd hcon (by simp [makedirsAux])⟩
  | succ f ih =>
    intro fs name
    simp only [makedirsAux]
    by_cases hcond : (if (posixSplit name).2 = "" then posixSplit (posixSplit name).1
        else posixSplit name).1 ≠ "" ∧
        (if (posixSplit name).2 = "" then posixSplit (posixSplit name).1
        else posixSplit name).2 ≠ "" ∧
        ¬ fs.path_exists (if (posixSplit name).2 = "" then posixSplit (posixSplit name).1
        else posixSplit name).1
    · rw [if_pos hcond]
      obtain ⟨ihf, ihden, ihmono, ihwf, _⟩ := ih fs (if (posixSplit name).2 = ""
        then posixSplit (posixSplit name).1 else posixSplit name).1
      rcases hrec : makedirsAux f fs (if (posixSplit name).2 = ""
        then posixSplit (posixSplit name).1 else posixSplit name).1 with ⟨fs2, e2⟩
      rw [hrec] at ihf ihden ihmono ihwf
      obtain ⟨s1, s2, s3, s4, s5⟩ := mkdirStage_spec fs2 name
      cases e2 with
      | none =>
        dsimp only
        exact ⟨s1.trans ihf, s2.trans ihden, fun p hp => s3 p (ihmono p hp),
          fun hwf => s4 (ihwf hwf), fun h0 => s5 h0⟩
      | some err =>
        cases err with
        | fileExists q =>
          dsimp only
          exact ⟨s1.trans ihf, s2.trans ihden, fun p hp => s3 p (ihmono p hp),
            fun hwf => s4 (ihwf hwf), fun h0 => s5 h0⟩
        | fileNotFound q =>
          dsimp only
          exact ⟨ihf, ihden, ihmono, ihwf, fun hcon => absurd hcon (by simp)⟩
        | isADirectory q =>
          dsimp only
          exact ⟨ihf, ihden, ihmono, ihwf, fun hcon => absurd hcon (by simp)⟩
        | permissionDenied q =>
          dsimp only
          exact ⟨ihf, ihden, ihmono, ihwf, fun hcon => absurd hcon (by simp)⟩
    · rw [if_neg hcond]
      dsimp only
      exact mkdirStage_spec fs name

theorem makedirs_spec (fs : FS) (name : String) :
    ((makedirs fs name).1.files = fs.files) ∧
    ((makedirs fs name).1.denied = fs.denied) ∧
    (∀ p, fs.isdir p → (makedirs fs name).1.isdir p) ∧
    (fs.wf → (makedirs fs name).1.wf) ∧
    ((makedirs fs name).2 = none → (makedirs fs name).1.isdir name) :=
  makedirsAux_spec (name.length + 1) fs name

theorem chain_isdir_aux (fs : FS) (hwf : fs.wf) (fuel : Nat) :
    ∀ (d : String), (d = "" ∨ fs.isdir d) →
      ∀ p ∈ ancestorChainAux fuel d, p = "" ∨ fs.isdir p := by
  induction fuel with
  | zero => intro d _ p hp; cases hp
  | succ f ih =>
    intro d hd p hp
    simp only [ancestorChainAux] at hp
    split at hp
    · cases hp
    · next hd0 =>
      split at hp
      · next hfix =>
        rcases List.mem_singleton.mp hp with rfl
        exact hd
      · next hfix =>
        rcases List.mem_cons.mp hp with rfl | hp2
        · exact hd
        · rcases hd with rfl | hd
          · exact absurd rfl hd0
          · rcases hwf.2 d hd with h5 | h5 | h5
            · exact ih (dirname d) (Or.inl h5) p hp2
            · exact absurd h5 hfix
            · exact ih (dirname d) (Or.inr h5) p hp2

theorem chain_isdir (fs : FS) (hwf : fs.wf) (d : String) (hd : d = "" ∨ fs.isdir d) :
    ∀ p ∈ ancestorChain d, p = "" ∨ fs.isdir p :=
  chain_isdir_aux fs hwf (d.length + 1) d hd

/-! ### The parent of a bare filename is the empty string -/

theorem takeWhile_all {α} (q : α → Bool) :
    ∀ l : List α, (∀ a ∈ l, q a = true) → l.takeWhile q = l := by
  intro l h
  induction l with
  | nil => rfl
  | cons a as ih =>
    rw [List.takeWhile_cons_of_pos (h a (List.mem_cons_self a as))]
    rw [ih fun b hb => h b (List.mem_cons_of_mem a hb)]

theorem splitRawTail_no_slash (cs : List Char) (h : '/' ∉ cs) : splitRawTail cs = cs := by
  unfold splitRawTail
  rw [takeWhile_all _ cs.reverse, List.reverse_reverse]
  intro a ha
  have : a ∈ cs := List.mem_reverse.mp ha
  simp only [decide_eq_true_eq]
  intro heq
  exact h (heq ▸ this)

theorem dirname_no_slash (p : String) (h : '/' ∉ p.data) : dirname p = "" := by
  unfold dirname posixSplit
  simp only [splitRawTail_no_slash p.data h, Nat.sub_self, List.take_zero]
  simp

theorem makedirsAux_nil (fuel : Nat) (fs : FS) (h : ¬ fs.isdir "") :
    makedirsAux (fuel + 1) fs "" = (fs, some (.fileNotFound "")) := by
  have h0 : posixSplit "" = ("", "") := rfl
  simp [makedirsAux, h0, mkdirStage, FS.mkdir, h]

theorem makedirs_empty (fs : FS) (h : ¬ fs.isdir "") :
    makedirs fs "" = (fs, some (.fileNotFound "")) :=
  makedirsAux_nil 0 fs h

/-! ### Lemmas about writing and the whole run -/

theorem write_to_disk_snd_indep (fs : FS) (p c1 c2 : String) :
    (write_to_disk fs p c1).2 = (write_to_disk fs p c2).2 := by
  unfold write_to_disk
  cases makedirs fs (dirname p) with
  | mk fs1 e =>
    cases e with
    | some err => rfl
    | none =>
      dsimp only
      cases fs1.writeCheck p with
      | some e2 => rfl
      | none => rfl

theorem write_to_disk_ok (fs : FS) (p c : String) (fs2 : FS)
    (h : write_to_disk fs p c = (fs2, none)) :
    ∃ fs1, makedirs fs (dirname p) = (fs1, none) ∧ fs1.writeCheck p = none ∧
      fs2 = fs1.putFile p c := by
  unfold write_to_disk at h
  cases hm : makedirs fs (dirname p) with
  | mk fs1 e =>
    rw [hm] at h
    cases e with
    | some err => simp at h
    | none =>
      dsimp only at h
      cases hw : fs1.writeCheck p with
      | some e2 =>
        rw [hw] at h
        simp at h
      | none =>
        rw [hw] at h
        dsimp only at h
        rw [Prod.mk.injEq] at h
        exact ⟨fs1, rfl, hw, h.1.symm⟩

theorem generate_cases (acc : HostAccounts) (fs : FS) (req : GenerationRequest) :
    (∃ fs2, write_to_disk fs req.output_path
        (compose_content req (resolve_user_directive acc req.user_name).1) = (fs2, none) ∧
      generate_compose_yaml acc fs req =
        ⟨fs2, 0, [info_message req.output_path], (resolve_user_directive acc req.user_name).2⟩) ∨
    (∃ fs2 e, write_to_disk fs req.output_path
        (compose_content req (resolve_user_directive acc req.user_name).1) = (fs2, some e) ∧
      generate_compose_yaml acc fs req =
        ⟨fs2, 1, [], (resolve_user_directive acc req.user_name).2 ++
          [error_message req.output_path e]⟩) := by
  simp only [generate_compose_yaml]
  cases hw : write_to_disk fs req.output_path
      (compose_content req (resolve_user_directive acc req.user_name).1) with
  | mk fs2 e =>
    cases e with
    | none => exact Or.inl ⟨fs2, rfl, rfl⟩
    | some err => exact Or.inr ⟨fs2, err, rfl, rfl⟩

/-! ### Distinguishing rendered lines from the socket-mount line -/

theorem ne_of_leading_mismatch (s t pre : String) (rest : List Char) (i : Nat)
    (ht : t.data = pre.data ++ rest) (hi : i < pre.data.length)
    (hne : ¬ s.data[i]? = pre.data[i]?) : ¬ s = t := by
  intro h
  apply hne
  rw [h, ht, List.getElem?_append_left hi]

theorem socket_ne_user_line (acc : HostAccounts) (u : String) :
    ¬ ("      - /var/run/docker.sock:/var/run/docker.sock" : String) =
      "    " ++ (resolve_user_directive acc u).1 := by
  unfold resolve_user_directive
  cases acc.pw_uid u with
  | none =>
    show ¬ ("      - /var/run/docker.sock:/var/run/docker.sock" : String) =
      "    " ++ user_directive_placeholder
    decide
  | some uid =>
    cases acc.gr_gid u with
    | none =>
      show ¬ ("      - /var/run/docker.sock:/var/run/docker.sock" : String) =
        "    " ++ user_directive_placeholder
      decide
    | some gid =>
      intro h
      have hd := congrArg String.data h
      rw [String.data_append] at hd
      have h4 : (("      - /var/run/docker.sock:/var/run/docker.sock" : String).data)[4]? =
          (("    " : String).data ++
            ("user: \"" ++ toString uid ++ ":" ++ toString gid ++ "\"").data)[4]? := by
        rw [hd]
      rw [List.getElem?_append_right (by decide)] at h4
      rw [show ("user: \"" ++ toString uid ++ ":" ++ toString gid ++ "\"").data =
          ("user: \"" : String).data ++ ((toString uid).data ++ (((":" : String).data ++
            ((toString gid).data ++ ("\"" : String).data)))) from by
        simp [List.append_assoc]] at h4
      rw [List.getElem?_append_left (by decide)] at h4
      simp at h4

theorem generate_exit_indep (acc acc2 : HostAccounts) (fs : FS) (req : GenerationRequest) :
    (generate_compose_yaml acc fs req).exitCode =
      (generate_compose_yaml acc2 fs req).exitCode := by
  have hsnd := write_to_disk_snd_indep fs req.output_path
    (compose_content req (resolve_user_directive acc req.user_name).1)
    (compose_content req (resolve_user_directive acc2 req.user_name).1)
  rcases generate_cases acc fs req with ⟨fs2, hw, hg⟩ | ⟨fs2, e, hw, hg⟩ <;>
    rcases generate_cases acc2 fs req with ⟨fs3, hw2, hg2⟩ | ⟨fs3, e2, hw2, hg2⟩ <;>
    rw [hg, hg2] <;>
    rw [hw, hw2] at hsnd <;>
    simp at hsnd ⊢

/-- Claim C1: when the host account lookup for the user name succeeds, the resolved
user directive is the uid and the gid of the same-named group joined by a
colon; when either lookup fails, the directive is the comment-only
placeholder, a warning goes to the diagnostic stream, and the failure never
affects the exit code. -/
theorem claim_user_directive_resolution (acc : HostAccounts) (u : String) :
    (∀ uid gid, acc.pw_uid u = some uid → acc.gr_gid u = some gid →
      resolve_user_directive acc u =
        ("user: \"" ++ toString uid ++ ":" ++ toString gid ++ "\"", [])) ∧
    ((acc.pw_uid u = none ∨ acc.gr_gid u = none) →
      resolve_user_directive acc u = (user_directive_placeholder, [warning_message u])) ∧
    ((acc.pw_uid u = none ∨ acc.gr_gid u = none) →
      ∀ (fs : FS) (req : GenerationRequest), req.user_name = u →
        warning_message u ∈ (generate_compose_yaml acc fs req).stderr) ∧
    (∀ (acc2 : HostAccounts) (fs : FS) (req : GenerationRequest),
      (generate_compose_yaml acc fs req).exitCode =
        (generate_compose_yaml acc2 fs req).exitCode) := by
  refine ⟨?_, ?_, ?_, fun acc2 fs req => generate_exit_indep acc acc2 fs req⟩
  · intro uid gid h1 h2
    unfold resolve_user_directive
    rw [h1, h2]
  · intro h
    unfold resolve_user_directive
    rcases h with h | h
    · rw [h]
    · cases hp : acc.pw_uid u with
      | none => rfl
      | some uid => rw [h]
  · intro h fs req hun
    have hres : (resolve_user_directive acc req.user_name).2 = [warning_message u] := by
      rw [hun]
      unfold resolve_user_directive
      rcases h with h | h
      · rw [h]
      · cases hp : acc.pw_uid u with
        | none => rfl
        | some uid => rw [h]
    rcases generate_cases acc fs req with ⟨fs2, hw, hg⟩ | ⟨fs2, e, hw, hg⟩ <;> rw [hg]
    · show warning_message u ∈ (resolve_user_directive acc req.user_name).2
      rw [hres]
      exact List.mem_singleton.mpr rfl
    · show warning_message u ∈ (resolve_user_directive acc req.user_name).2 ++ _
      rw [hres]
      exact List.mem_append_left _ (List.mem_singleton.mpr rfl)

theorem claim_user_directive_resolution_witness :
    (resolve_user_directive sampleAccounts "coder" = ("user: \"1000:1000\"", []) ∧
      resolve_user_directive emptyAccounts "coder" =
        (user_directive_placeholder, [warning_message "coder"]) ∧
      warning_message "coder" ∈
        (generate_compose_yaml emptyAccounts baseFS sampleRequest).stderr ∧
      (generate_compose_yaml emptyAccounts baseFS sampleRequest).exitCode =
        (generate_compose_yaml sampleAccounts baseFS sampleRequest).exitCode) := by
  refine ⟨?_, ?_, ?_, ?_⟩
  · have h := (claim_user_directive_resolution sampleAccounts "coder").1 1000 1000 rfl rfl
    rw [h]
    rfl
  · exact (claim_user_directive_resolution emptyAccounts "coder").2.1 (Or.inl rfl)
  · exact (claim_user_directive_resolution emptyAccounts "coder").2.2.1 (Or.inl rfl)
      baseFS sampleRequest rfl
  · exact (claim_user_directive_resolution emptyAccounts "coder").2.2.2 sampleAccounts
      baseFS sampleRequest

/-- Claim C4: rendering is deterministic; an identical request and an identical
resolved user directive yield byte-identical output text. -/
theorem claim_rendering_deterministic (req1 req2 : GenerationRequest) (ud1 ud2 : String)
    (h1 : req1 = req2) (h2 : ud1 = ud2) :
    compose_content req1 ud1 = compose_content req2 ud2 := by
  rw [h1, h2]

theorem claim_rendering_deterministic_witness :
    compose_content sampleRequest user_directive_placeholder =
      compose_content sampleRequest user_directive_placeholder :=
  claim_rendering_deterministic sampleRequest sampleRequest
    user_directive_placeholder user_directive_placeholder rfl rfl

/-- Claim C9: the rendered text does not depend on the output path; two requests
differing only in `output_path` render identically, both for a given user
directive and after resolving the directive from the same host accounts. -/
theorem claim_output_path_independent (req1 req2 : GenerationRequest) (ud : String)
    (hh : req1.host_port = req2.host_port) (hcp : req1.container_port = req2.container_port)
    (hu : req1.user_name = req2.user_name) (hp : req1.projects_subdir = req2.projects_subdir)
    (hcfg : req1.config_subdir = req2.config_subdir)
    (hsock : req1.use_docker_socket = req2.use_docker_socket) :
    compose_content req1 ud = compose_content req2 ud ∧
    (∀ acc : HostAccounts,
      compose_content req1 (resolve_user_directive acc req1.user_name).1 =
        compose_content req2 (resolve_user_directive acc req2.user_name).1) := by
  constructor
  · unfold compose_content
    rw [hh, hcp, hp, hcfg, hsock]
  · intro acc
    unfold compose_content
    rw [hh, hcp, hu, hp, hcfg, hsock]

theorem claim_output_path_independent_witness :
    compose_content sampleRequest user_directive_placeholder =
      compose_content bareRequest user_directive_placeholder ∧
    (∀ acc : HostAccounts,
      compose_content sampleRequest (resolve_user_directive acc sampleRequest.user_name).1 =
        compose_content bareRequest (resolve_user_directive acc bareRequest.user_name).1) :=
  claim_output_path_independent sampleRequest bareRequest user_directive_placeholder
    rfl rfl rfl rfl rfl rfl

/-- Claim C6: the run exits 0 on success and 1 exactly when the directory creation
or the file write failed, reporting the offending path and cause on the
diagnostic stream; the account lookup never affects the exit code. -/
theorem claim_exit_status (acc acc2 : HostAccounts) (fs : FS) (req : GenerationRequest) :
    ((generate_compose_yaml acc fs req).exitCode = 0 ∨
      (generate_compose_yaml acc fs req).exitCode = 1) ∧
    ((generate_compose_yaml acc fs req).exitCode = 0 ↔
      (write_to_disk fs req.output_path
        (compose_content req (resolve_user_directive acc req.user_name).1)).2 = none) ∧
    ((generate_compose_yaml acc fs req).exitCode = 1 →
      ∃ e : IOErr, error_message req.output_path e ∈
        (generate_compose_yaml acc fs req).stderr) ∧
    (generate_compose_yaml acc fs req).exitCode =
      (generate_compose_yaml acc2 fs req).exitCode := by
  refine ⟨?_, ?_, ?_, generate_exit_indep acc acc2 fs req⟩ <;>
    rcases generate_cases acc fs req with ⟨fs2, hw, hg⟩ | ⟨fs2, e, hw, hg⟩
  · exact Or.inl (by rw [hg])
  · exact Or.inr (by rw [hg])
  · rw [hg, hw]
    simp
  · rw [hg, hw]
    simp
  · intro h0
    rw [hg] at h0
    simp at h0
  · refine fun _ => ⟨e, ?_⟩
    rw [hg]
    exact List.mem_append_right _ (List.mem_singleton.mpr rfl)

theorem claim_exit_status_witness :
    ((generate_compose_yaml sampleAccounts baseFS sampleRequest).exitCode = 0 ∨
      (generate_compose_yaml sampleAccounts baseFS sampleRequest).exitCode = 1) ∧
    ((generate_compose_yaml sampleAccounts baseFS sampleRequest).exitCode = 0 ↔
      (write_to_disk baseFS sampleRequest.output_path
        (compose_content sampleRequest
          (resolve_user_directive sampleAccounts sampleRequest.user_name).1)).2 = none) ∧
    ((generate_compose_yaml sampleAccounts baseFS sampleRequest).exitCode = 1 →
      ∃ e : IOErr, error_message sampleRequest.output_path e ∈
        (generate_compose_yaml sampleAccounts baseFS sampleRequest).stderr) ∧
    (generate_compose_yaml sampleAccounts baseFS sampleRequest).exitCode =
      (generate_compose_yaml emptyAccounts baseFS sampleRequest).exitCode :=
  claim_exit_status sampleAccounts emptyAccounts baseFS sampleRequest

/-- Claim C3: the port mapping line of the rendered document reads exactly
`      - "<hostPort>:<containerPort>"` with the literal supplied integers
interpolated, for every pair of integers and with no validation. -/
theorem claim_port_mapping_line (acc : HostAccounts) (req : GenerationRequest) :
    ("      - \"" ++ toString req.host_port ++ ":" ++ toString req.container_port ++ "\"") ∈
      splitLines (compose_content req (resolve_user_directive acc req.user_name).1) := by
  unfold compose_content
  refine mem_splitLines_joinLines_middle
    [ "",
      "services:",
      "  code-server:",
      "    image: codercom/code-server:latest # Official image",
      "    container_name: code-server",
      "    command: [\"--cert\"]",
      "    environment:",
      "      # Optional: Set passwords via environment variables if desired",
      "      # - PASSWORD=your_strong_password_here # Set a fixed password",
      "      # - SUDO_PASSWORD=optional_sudo_password # If you need sudo inside",
      "      - TZ=Etc/UTC",
      "    volumes:",
      "      # Map config dir from host (relative to compose file) to container",
      "      - ./" ++ req.config_subdir ++ ":/home/coder/.config ",
      "      # Map local settings dir from host (relative to compose file) to container",
      "      - ./" ++ req.config_subdir ++ "/local-share:/home/coder/.local/share/code-server",
      "      # Map projects dir from host (relative to compose file) to container",
      "      - ./" ++ req.projects_subdir ++ ":/home/coder/projects",
      "      # Optional: Mount docker socket (use with caution)",
      "      " ++ (if req.use_docker_socket then "- /var/run/docker.sock:/var/run/docker.sock"
                   else "# - /var/run/docker.sock:/var/run/docker.sock"),
      "    ports:",
      "      # Map host port to container port" ]
    [ "    restart: unless-stopped",
      "    # Run the container process as the host user for correct volume permissions",
      "    " ++ (resolve_user_directive acc req.user_name).1,
      "",
      "networks:",
      "  default:",
      "    name: code-server_network",
      "",
      "" ]
    ("      - \"" ++ toString req.host_port ++ ":" ++ toString req.container_port ++ "\"")
    ?_ (by simp) (by simp)
  exact no_newline_append (no_newline_append (no_newline_append (no_newline_append
    (by decide) (toString_int_ne_newline _)) (by decide)) (toString_int_ne_newline _)) (by decide)

/-- Claim C5: whenever the run succeeds, every ancestor directory of the output
path exists in the final filesystem, any missing ones having been created; in
particular the specification example below a missing `/tmp/x` succeeds. -/
theorem claim_ancestor_directories_created (acc : HostAccounts) (fs : FS)
    (req : GenerationRequest) (hwf : fs.wf)
    (h0 : (generate_compose_yaml acc fs req).exitCode = 0) :
    ∀ p ∈ ancestorChain (dirname req.output_path),
      p = "" ∨ (generate_compose_yaml acc fs req).fs.isdir p := by
  rcases generate_cases acc fs req with ⟨fs2, hw, hg⟩ | ⟨fs2, e, hw, hg⟩
  · obtain ⟨fs1, hm, hcheck, hput⟩ := write_to_disk_ok _ _ _ _ hw
    obtain ⟨mf, md, mmono, mwf, mok⟩ := makedirs_spec fs (dirname req.output_path)
    rw [hm] at mwf mok
    have hwf1 : fs1.wf := mwf hwf
    have hisdir : fs1.isdir (dirname req.output_path) := mok rfl
    intro p hp
    rcases chain_isdir fs1 hwf1 (dirname req.output_path) (Or.inr hisdir) p hp with h | h
    · exact Or.inl h
    · right
      rw [hg]
      show p ∈ fs2.dirs
      rw [hput]
      exact h
  · rw [hg] at h0
    simp at h0

theorem claim_ancestor_directories_created_witness :
    baseFS.wf ∧
    (generate_compose_yaml sampleAccounts baseFS sampleRequest).exitCode = 0 ∧
    ∀ p ∈ ancestorChain (dirname sampleRequest.output_path),
      p = "" ∨ (generate_compose_yaml sampleAccounts baseFS sampleRequest).fs.isdir p :=
  ⟨by decide, by decide,
    claim_ancestor_directories_created sampleAccounts baseFS sampleRequest
      (by decide) (by decide)⟩

/-- Claim C7: on a successful run, the output file holds exactly the rendered text
(any previous content is replaced), and the given path is reported on the
standard output stream. -/
theorem claim_successful_write (acc : HostAccounts) (fs : FS) (req : GenerationRequest)
    (h0 : (generate_compose_yaml acc fs req).exitCode = 0) :
    (generate_compose_yaml acc fs req).fs.readFile req.output_path =
      some (compose_content req (resolve_user_directive acc req.user_name).1) ∧
    (∀ c, (req.output_path, c) ∈ (generate_compose_yaml acc fs req).fs.files →
      c = compose_content req (resolve_user_directive acc req.user_name).1) ∧
    info_message req.output_path ∈ (generate_compose_yaml acc fs req).stdout := by
  rcases generate_cases acc fs req with ⟨fs2, hw, hg⟩ | ⟨fs2, e, hw, hg⟩
  · obtain ⟨fs1, hm, hcheck, hput⟩ := write_to_disk_ok _ _ _ _ hw
    rw [hg]
    refine ⟨?_, ?_, List.mem_singleton.mpr rfl⟩
    · show fs2.readFile req.output_path = _
      rw [hput]
      unfold FS.readFile FS.putFile
      simp
    · intro c hc
      dsimp only at hc
      rw [hput] at hc
      unfold FS.putFile at hc
      dsimp only at hc
      rcases List.mem_cons.mp hc with h | h
      · exact congrArg Prod.snd h
      · have := (List.mem_filter.mp h).2
        simp at this
  · rw [hg] at h0
    simp at h0

theorem claim_successful_write_witness :
    (generate_compose_yaml sampleAccounts baseFS sampleRequest).exitCode = 0 ∧
    ((generate_compose_yaml sampleAccounts baseFS sampleRequest).fs.readFile
        sampleRequest.output_path =
      some (compose_content sampleRequest
        (resolve_user_directive sampleAccounts sampleRequest.user_name).1) ∧
    (∀ c, (sampleRequest.output_path, c) ∈
        (generate_compose_yaml sampleAccounts baseFS sampleRequest).fs.files →
      c = compose_content sampleRequest
        (resolve_user_directive sampleAccounts sampleRequest.user_name).1) ∧
    info_message sampleRequest.output_path ∈
      (generate_compose_yaml sampleAccounts baseFS sampleRequest).stdout) :=
  ⟨by decide, claim_successful_write sampleAccounts baseFS sampleRequest (by decide)⟩

/-- Claim C10: when the output path contains no slash, its parent is the empty
string, directory creation fails, the run exits 1 without writing anything,
and the failure is reported; yet the write itself into the working directory
would have succeeded. -/
theorem claim_bare_filename_fails (acc : HostAccounts) (fs : FS) (req : GenerationRequest)
    (hwf : fs.wf) (hns : '/' ∉ req.output_path.data) :
    (generate_compose_yaml acc fs req).exitCode = 1 ∧
    (generate_compose_yaml acc fs req).fs = fs ∧
    error_message req.output_path (IOErr.fileNotFound "") ∈
      (generate_compose_yaml acc fs req).stderr ∧
    (req.output_path ≠ "" → ¬ fs.isdir req.output_path → req.output_path ∉ fs.denied →
      fs.writeCheck req.output_path = none) := by
  have hdir : dirname req.output_path = "" := dirname_no_slash _ hns
  have hemp : ¬ fs.isdir "" := fun h => hwf.1 h
  have hmk : makedirs fs (dirname req.output_path) = (fs, some (.fileNotFound "")) := by
    rw [hdir]
    exact makedirs_empty fs hemp
  have hw : write_to_disk fs req.output_path
      (compose_content req (resolve_user_directive acc req.user_name).1) =
      (fs, some (.fileNotFound "")) := by
    unfold write_to_disk
    rw [hmk]
  have hwc : req.output_path ≠ "" → ¬ fs.isdir req.output_path →
      req.output_path ∉ fs.denied → fs.writeCheck req.output_path = none := by
    intro h1 h2 h3
    unfold FS.writeCheck
    rw [if_neg h1, if_neg h2, if_neg h3, if_pos (Or.inl hdir)]
  rcases generate_cases acc fs req with ⟨fs2, hw2, hg⟩ | ⟨fs2, e, hw2, hg⟩
  · rw [hw] at hw2
    simp at hw2
  · rw [hw] at hw2
    rw [Prod.mk.injEq] at hw2
    obtain ⟨hfs, he⟩ := hw2
    injection he with he2
    subst he2
    subst hfs
    rw [hg]
    exact ⟨rfl, rfl, List.mem_append_right _ (List.mem_singleton.mpr rfl), hwc⟩

theorem claim_bare_filename_fails_witness :
    baseFS.wf ∧ '/' ∉ bareRequest.output_path.data ∧
    ((generate_compose_yaml sampleAccounts baseFS bareRequest).exitCode = 1 ∧
    (generate_compose_yaml sampleAccounts baseFS bareRequest).fs = baseFS ∧
    error_message bareRequest.output_path (IOErr.fileNotFound "") ∈
      (generate_compose_yaml sampleAccounts baseFS bareRequest).stderr ∧
    (bareRequest.output_path ≠ "" → ¬ baseFS.isdir bareRequest.output_path →
      bareRequest.output_path ∉ baseFS.denied →
      baseFS.writeCheck bareRequest.output_path = none)) :=
  ⟨by decide, by decide,
    claim_bare_filename_fails sampleAccounts baseFS bareRequest (by decide) (by decide)⟩

/-- Claim C2, amended: the socket-mount slot renders the active line exactly when
`use_docker_socket` is set and the commented line otherwise; provided the two
directory fields contain no newline character, no active socket-mount line
appears anywhere when the option is off. -/
theorem claim_socket_line_amended (acc : HostAccounts) (req : GenerationRequest)
    (hc : '\n' ∉ req.config_subdir.data) (hp : '\n' ∉ req.projects_subdir.data) :
    (req.use_docker_socket = true →
      "      - /var/run/docker.sock:/var/run/docker.sock" ∈
        splitLines (compose_content req (resolve_user_directive acc req.user_name).1)) ∧
    (req.use_docker_socket = false →
      "      # - /var/run/docker.sock:/var/run/docker.sock" ∈
        splitLines (compose_content req (resolve_user_directive acc req.user_name).1) ∧
      "      - /var/run/docker.sock:/var/run/docker.sock" ∉
        splitLines (compose_content req (resolve_user_directive acc req.user_name).1)) := by
  have hlines := compose_content_lines req _ hc hp
    (resolve_user_directive_no_newline acc req.user_name)
  constructor
  · intro ht
    rw [hlines, ht, if_pos rfl]
    have hsp : ("      - /var/run/docker.sock:/var/run/docker.sock" : String) =
        "      " ++ "- /var/run/docker.sock:/var/run/docker.sock" := rfl
    rw [hsp]
    simp [List.mem_cons]
  · intro hf
    rw [hlines, hf, if_neg (by decide : ¬ false = true)]
    constructor
    · have hsp : ("      # - /var/run/docker.sock:/var/run/docker.sock" : String) =
          "      " ++ "# - /var/run/docker.sock:/var/run/docker.sock" := rfl
      rw [hsp]
      simp [List.mem_cons]
    · simp only [List.mem_cons, not_or]
      refine ⟨by decide, by decide, by decide, by decide, by decide, by decide, by decide,
        by decide, by decide, by decide, by decide, by decide, by decide,
        ne_of_leading_mismatch _ _ "      - ./"
          (req.config_subdir.data ++ (":/home/coder/.config " : String).data) 8
          (by simp [List.append_assoc]) (by decide) (by decide),
        by decide,
        ne_of_leading_mismatch _ _ "      - ./"
          (req.config_subdir.data ++
            ("/local-share:/home/coder/.local/share/code-server" : String).data) 8
          (by simp [List.append_assoc]) (by decide) (by decide),
        by decide,
        ne_of_leading_mismatch _ _ "      - ./"
          (req.projects_subdir.data ++ (":/home/coder/projects" : String).data) 8
          (by simp [List.append_assoc]) (by decide) (by decide),
        by decide, by decide, by decide, by decide,
        ne_of_leading_mismatch _ _ "      - \""
          ((toString req.host_port).data ++ ((":" : String).data ++
            ((toString req.container_port).data ++ ("\"" : String).data))) 8
          (by simp [List.append_assoc]) (by decide) (by decide),
        by decide, by decide,
        socket_ne_user_line acc req.user_name,
        by decide, by decide, by decide, by decide, by decide, by decide,
        List.not_mem_nil _⟩

set_option maxHeartbeats 1600000 in
set_option maxRecDepth 20000 in
/-- Claim C2 fails as universally stated: with the socket option off, a projects
directory name embedding a newline makes the rendered text contain the exact
active socket-mount line among its lines. -/
theorem claim_socket_line_counterexample :
    injectedRequest.use_docker_socket = false ∧
    "      - /var/run/docker.sock:/var/run/docker.sock" ∈
      splitLines (compose_content injectedRequest
        (resolve_user_directive emptyAccounts injectedRequest.user_name).1) := by
  constructor
  · rfl
  · decide

theorem claim_socket_line_amended_witness :
    '\n' ∉ socketRequest.config_subdir.data ∧
    '\n' ∉ socketRequest.projects_subdir.data ∧
    ((socketRequest.use_docker_socket = true →
      "      - /var/run/docker.sock:/var/run/docker.sock" ∈
        splitLines (compose_content socketRequest
          (resolve_user_directive sampleAccounts socketRequest.user_name).1)) ∧
    (socketRequest.use_docker_socket = false →
      "      # - /var/run/docker.sock:/var/run/docker.sock" ∈
        splitLines (compose_content socketRequest
          (resolve_user_directive sampleAccounts socketRequest.user_name).1) ∧
      "      - /var/run/docker.sock:/var/run/docker.sock" ∉
        splitLines (compose_content socketRequest
          (resolve_user_directive sampleAccounts socketRequest.user_name).1))) :=
  ⟨by decide, by decide,
    claim_socket_line_amended sampleAccounts socketRequest (by decide) (by decide)⟩

/-- Claim C8, amended: provided the two directory fields contain no newline
character, the rendered document is exactly the fixed line structure: the
single `code-server` service with image, container name, command, timezone
environment entry, the config, local-share and projects mounts, the
conditional socket slot, one port mapping, the restart policy, the resolved
user directive, and the named network block. -/
theorem claim_fixed_structure_amended (acc : HostAccounts) (req : GenerationRequest)
    (hc : '\n' ∉ req.config_subdir.data) (hp : '\n' ∉ req.projects_subdir.data) :
    splitLines (compose_content req (resolve_user_directive acc req.user_name).1) =
    [ "",
      "services:",
      "  code-server:",
      "    image: codercom/code-server:latest # Official image",
      "    container_name: code-server",
      "    command: [\"--cert\"]",
      "    environment:",
      "      # Optional: Set passwords via environment variables if desired",
      "      # - PASSWORD=your_strong_password_here # Set a fixed password",
      "      # - SUDO_PASSWORD=optional_sudo_password # If you need sudo inside",
      "      - TZ=Etc/UTC",
      "    volumes:",
      "      # Map config dir from host (relative to compose file) to container",
      "      - ./" ++ req.config_subdir ++ ":/home/coder/.config ",
      "      # Map local settings dir from host (relative to compose file) to container",
      "      - ./" ++ req.config_subdir ++ "/local-share:/home/coder/.local/share/code-server",
      "      # Map projects dir from host (relative to compose file) to container",
      "      - ./" ++ req.projects_subdir ++ ":/home/coder/projects",
      "      # Optional: Mount docker socket (use with caution)",
      "      " ++ (if req.use_docker_socket then "- /var/run/docker.sock:/var/run/docker.sock"
                   else "# - /var/run/docker.sock:/var/run/docker.sock"),
      "    ports:",
      "      # Map host port to container port",
      "      - \"" ++ toString req.host_port ++ ":" ++ toString req.container_port ++ "\"",
      "    restart: unless-stopped",
      "    # Run the container process as the host user for correct volume permissions",
      "    " ++ (resolve_user_directive acc req.user_name).1,
      "",
      "networks:",
      "  default:",
      "    name: code-server_network",
      "",
      "" ] :=
  compose_content_lines req _ hc hp (resolve_user_directive_no_newline acc req.user_name)

set_option maxHeartbeats 1600000 in
set_option maxRecDepth 20000 in
/-- Claim C8 fails as universally stated: for a projects directory name embedding a
newline, the rendered document does not have the fixed 32-line structure (two
extra lines appear). -/
theorem claim_fixed_structure_counterexample :
    ¬ (splitLines (compose_content injectedRequest
        (resolve_user_directive emptyAccounts injectedRequest.user_name).1) =
    [ "",
      "services:",
      "  code-server:",
      "    image: codercom/code-server:latest # Official image",
      "    container_name: code-server",
      "    command: [\"--cert\"]",
      "    environment:",
      "      # Optional: Set passwords via environment variables if desired",
      "      # - PASSWORD=your_strong_password_here # Set a fixed password",
      "      # - SUDO_PASSWORD=optional_sudo_password # If you need sudo inside",
      "      - TZ=Etc/UTC",
      "    volumes:",
      "      # Map config dir from host (relative to compose file) to container",
      "      - ./" ++ injectedRequest.config_subdir ++ ":/home/coder/.config ",
      "      # Map local settings dir from host (relative to compose file) to container",
      "      - ./" ++ injectedRequest.config_subdir ++
        "/local-share:/home/coder/.local/share/code-server",
      "      # Map projects dir from host (relative to compose file) to container",
      "      - ./" ++ injectedRequest.projects_subdir ++ ":/home/coder/projects",
      "      # Optional: Mount docker socket (use with caution)",
      "      " ++ (if injectedRequest.use_docker_socket then
                     "- /var/run/docker.sock:/var/run/docker.sock"
                   else "# - /var/run/docker.sock:/var/run/docker.sock"),
      "    ports:",
      "      # Map host port to container port",
      "      - \"" ++ toString injectedRequest.host_port ++ ":" ++
        toString injectedRequest.container_port ++ "\"",
      "    restart: unless-stopped",
      "    # Run the container process as the host user for correct volume permissions",
      "    " ++ (resolve_user_directive emptyAccounts injectedRequest.user_name).1,
      "",
      "networks:",
      "  default:",
      "    name: code-server_network",
      "",
      "" ]) := by decide

theorem claim_fixed_structure_amended_witness :
    '\n' ∉ sampleRequest.config_subdir.data ∧
    '\n' ∉ sampleRequest.projects_subdir.data ∧
    splitLines (compose_content sampleRequest
      (resolve_user_directive sampleAccounts sampleRequest.user_name).1) =
    [ "",
      "services:",
      "  code-server:",
      "    image: codercom/code-server:latest # Official image",
      "    container_name: code-server",
      "    command: [\"--cert\"]",
      "    environment:",
      "      # Optional: Set passwords via environment variables if desired",
      "      # - PASSWORD=your_strong_password_here # Set a fixed password",
      "      # - SUDO_PASSWORD=optional_sudo_password # If you need sudo inside",
      "      - TZ=Etc/UTC",
      "    volumes:",
      "      # Map config dir from host (relative to compose file) to container",
      "      - ./" ++ sampleRequest.config_subdir ++ ":/home/coder/.config ",
      "      # Map local settings dir from host (relative to compose file) to container",
      "      - ./" ++ sampleRequest.config_subdir ++
        "/local-share:/home/coder/.local/share/code-server",
      "      # Map projects dir from host (relative to compose file) to container",
      "      - ./" ++ sampleRequest.projects_subdir ++ ":/home/coder/projects",
      "      # Optional: Mount docker socket (use with caution)",
      "      " ++ (if sampleRequest.use_docker_socket then
                     "- /var/run/docker.sock:/var/run/docker.sock"
                   else "# - /var/run/docker.sock:/var/run/docker.sock"),
      "    ports:",
      "      # Map host port to container port",
      "      - \"" ++ toString sampleRequest.host_port ++ ":" ++
        toString sampleRequest.container_port ++ "\"",
      "    restart: unless-stopped",
      "    # Run the container process as the host user for correct volume permissions",
      "    " ++ (resolve_user_directive sampleAccounts sampleRequest.user_name).1,
      "",
      "networks:",
      "  default:",
      "    name: code-server_network",
      "",
      "" ] :=
  ⟨by decide, by decide,
    claim_fixed_structure_amended sampleAccounts sampleRequest (by decide) (by decide)⟩
